import Mathlib

/-!
Verification development for the fitness-tracker core: a shallow embedding of
the metrics calculator (`fitnesstrack/utils.py`), the achievement engine
(`fitnesstrack/badge_system.py`) and the record-model properties
(`fitnesstrack/models.py`), followed by theorems settling the stated
properties of those components.

Numeric modelling conventions: Python floats are embedded as exact rationals
(`ℚ`); Python's `round` builtin (banker's rounding, ties to even) is embedded
as `pyRound`/`pyRound2`; Python's `int()` truncation of a non-negative
quotient is embedded as `Nat` floor division.  Dates are modelled by their
offset in days counted backwards from "today", so day `0` is today, day `1`
is yesterday, and so on.
-/

namespace FitnessTrack

/-- Python's `round(x)` builtin: nearest integer, ties to even. -/
def pyRound (q : ℚ) : ℤ :=
  let f := ⌊q⌋
  let r := q - (f : ℚ)
  if r < 1/2 then f
  else if 1/2 < r then f + 1
  else if f % 2 = 0 then f else f + 1

/-- Python's `round(x, 2)`: round to two decimal places, ties to even. -/
def pyRound2 (q : ℚ) : ℚ := (pyRound (q * 100) : ℚ) / 100

/-- A calendar date, as used by `FitnessCalculator.calculate_age`. -/
structure Date where
  year : ℤ
  month : ℕ
  day : ℕ
deriving DecidableEq, Repr

namespace FitnessCalculator

/-- `MET_VALUES.get(activity_type.upper(), 5.0)` from `utils.py`. -/
def metValue (activity_type : String) : ℚ :=
  match activity_type.toUpper with
  | "RUNNING" => 9.8
  | "CYCLING" => 7.5
  | "WEIGHTLIFTING" => 6.0
  | "SWIMMING" => 8.0
  | "WALKING" => 3.8
  | "YOGA" => 2.5
  | "HIIT" => 8.0
  | "OTHER" => 5.0
  | _ => 5.0

/-- `ACTIVITY_MULTIPLIERS.get(activity_level.upper(), 1.2)` from `utils.py`. -/
def activityMultiplier (activity_level : String) : ℚ :=
  match activity_level.toUpper with
  | "SEDENTARY" => 1.2
  | "ACTIVE" => 1.55
  | "ATHLETE" => 1.9
  | _ => 1.2

/-- `FitnessCalculator.calculate_bmi` from `utils.py`. -/
def calculate_bmi (weight_kg height_cm : ℚ) : Option ℚ :=
  if weight_kg ≤ 0 ∨ height_cm ≤ 0 then none
  else some (pyRound2 (weight_kg / ((height_cm / 100) ^ 2)))

/-- `FitnessCalculator.get_bmi_category` from `utils.py`. -/
def get_bmi_category (bmi : ℚ) : String :=
  if bmi < 18.5 then "Underweight"
  else if bmi < 25 then "Normal weight"
  else if bmi < 30 then "Overweight"
  else "Obese"

/-- `FitnessCalculator.calculate_bmr` from `utils.py` (Mifflin-St Jeor). -/
def calculate_bmr (weight_kg height_cm : ℚ) (age : ℤ) (gender : String) : Option ℚ :=
  if weight_kg ≤ 0 ∨ height_cm ≤ 0 ∨ age ≤ 0 then none
  else
    let bmr := 10 * weight_kg + 6.25 * height_cm - 5 * (age : ℚ)
    let bmr := if gender = "M" then bmr + 5 else bmr - 161
    some (pyRound2 bmr)

/-- `FitnessCalculator.calculate_tdee` from `utils.py`. -/
def calculate_tdee (bmr : ℚ) (activity_level : String) : Option ℚ :=
  if bmr ≤ 0 then none
  else some (pyRound2 (bmr * activityMultiplier activity_level))

/-- `FitnessCalculator.estimate_calories_burned` from `utils.py`. -/
def estimate_calories_burned (activity_type : String) (duration_minutes : ℤ)
    (weight_kg : ℚ) : Option ℤ :=
  if weight_kg ≤ 0 ∨ duration_minutes ≤ 0 then none
  else some (pyRound (metValue activity_type * weight_kg * ((duration_minutes : ℚ) / 60)))

/-- `FitnessCalculator.calculate_age` from `utils.py`; `today` is passed
explicitly in place of `date.today()`.  The tuple comparison
`(today.month, today.day) < (dob.month, dob.day)` is Python's lexicographic
order, spelled out. -/
def calculate_age (today date_of_birth : Date) : Option ℤ :=
  let age := today.year - date_of_birth.year -
    (if today.month < date_of_birth.month ∨
        (today.month = date_of_birth.month ∧ today.day < date_of_birth.day)
     then 1 else 0)
  if 0 ≤ age then some age else none

set_option linter.unusedVariables false in
/-- `FitnessCalculator.calculate_ideal_weight_range` from `utils.py`; the
`gender` argument is accepted but unused, as in the source. -/
def calculate_ideal_weight_range (height_cm : ℚ) (gender : String) : Option (ℚ × ℚ) :=
  if height_cm ≤ 0 then none
  else
    let height_m := height_cm / 100
    some (pyRound2 (18.5 * height_m ^ 2), pyRound2 (24.9 * height_m ^ 2))

/-- Result record of `FitnessCalculator.calculate_macros`. -/
structure Macros where
  protein_g : ℚ
  carbs_g : ℚ
  fat_g : ℚ
  calories : ℚ
deriving DecidableEq, Repr

/-- `FitnessCalculator.calculate_macros` from `utils.py`. -/
def calculate_macros (tdee : ℚ) (goal : String) : Option Macros :=
  if tdee ≤ 0 then none
  else
    let r : ℚ × ℚ × ℚ :=
      if goal = "WEIGHT_LOSS" then (0.40, 0.30, 0.30)
      else if goal = "MUSCLE_GAIN" then (0.30, 0.50, 0.20)
      else (0.30, 0.40, 0.30)
    some { protein_g := pyRound2 (tdee * r.1 / 4)
           carbs_g := pyRound2 (tdee * r.2.1 / 4)
           fat_g := pyRound2 (tdee * r.2.2 / 9)
           calories := pyRound2 tdee }

/-- `FitnessCalculator.calculate_water_intake_target` from `utils.py`. -/
def calculate_water_intake_target (weight_kg : ℚ) (activity_level : String) : Option ℤ :=
  if weight_kg ≤ 0 then none
  else
    let base := weight_kg * 35
    let base := if activity_level = "ATHLETE" then base * 1.3
                else if activity_level = "ACTIVE" then base * 1.15
                else base
    some (pyRound base)

end FitnessCalculator

/-! ## Record model and achievement engine (`models.py`, `badge_system.py`)

Records are viewed relative to a fixed "today": an activity or water record
carries the number of days between its timestamp's date and today (`0` =
today, `1` = yesterday), which is all the engine's date filters inspect. -/

/-- One `ActivityLog` row, reduced to the fields the engine reads. -/
structure Activity where
  day : ℕ
  hour : ℕ
  calories_burned : ℕ
deriving DecidableEq, Repr

/-- One `UserProfile` row, reduced to the fields the engine reads;
`weight_kg` is nullable in the schema. -/
structure Profile where
  weight_kg : Option ℚ
  activity_level : String
deriving DecidableEq, Repr

/-- A user's view of the record store: activity rows, water rows as
(day offset, milliliters) pairs, and the optional profile row. -/
structure Records where
  activities : List Activity
  water : List (ℕ × ℕ)
  profile : Option Profile
deriving DecidableEq, Repr

/-- The `badge_type` column of `Badge` (`models.py`, `BADGE_TYPES`). -/
inductive BadgeType
  | CONSISTENCY_7
  | CONSISTENCY_30
  | FIRST_WORKOUT
  | CALORIE_BURNER_1000
  | CALORIE_BURNER_5000
  | EARLY_BIRD
  | HYDRATION_MASTER
  | WEIGHT_GOAL
deriving DecidableEq, Repr

/-- `ActivityLog.objects.filter(user=user, date_created__date=check_date).exists()`. -/
def has_activity_on (recs : Records) (d : ℕ) : Bool :=
  recs.activities.any (fun a => a.day == d)

/-- `ActivityLog.objects.filter(user=user).aggregate(total=Sum('calories_burned'))`,
with the `or 0` for an empty set. -/
def total_calories_burned (recs : Records) : ℕ :=
  (recs.activities.map (·.calories_burned)).sum

/-- `WaterIntake.get_daily_total(user, date)` from `models.py`: filter the
water rows to the given day and sum their milliliters. -/
def get_daily_total (recs : Records) (d : ℕ) : ℕ :=
  ((recs.water.filter (fun w => w.1 == d)).map (·.2)).sum

/-- `ActivityLog.objects.filter(user=user, date_created__hour__lt=7).exists()`. -/
def has_early_activity (recs : Records) : Bool :=
  recs.activities.any (fun a => a.hour < 7)

/-- The `while` loop of `BadgeChecker._calculate_current_streak`, one fuel
step per loop iteration.  `check_date` is the day offset being inspected
(the Python code walks the calendar backwards; offsets walk forwards), and
the loop breaks as soon as `streak` exceeds 365. -/
def streakGo (has : ℕ → Bool) : ℕ → ℕ → ℕ → ℕ
  | 0, _, streak => streak
  | fuel + 1, check_date, streak =>
    if has check_date then
      let s := streak + 1
      if s > 365 then s
      else streakGo has fuel (check_date + 1) s
    else streak

/-- `BadgeChecker._calculate_current_streak` from `badge_system.py`.  Fuel
366 is exact: the loop body runs at most 366 times because `streak` grows by
one each iteration and the loop breaks once it exceeds 365
(`streakGo_fuel_irrel` shows more fuel changes nothing). -/
def calculate_current_streak (recs : Records) : ℕ :=
  streakGo (has_activity_on recs) 366 0 0

/-- `BadgeChecker.check_consistency_badge` from `badge_system.py`; the badge
table is threaded as a list of badge kinds held by the user. -/
def check_consistency_badge (recs : Records) (db : List BadgeType) :
    (Bool × ℕ) × List BadgeType :=
  if BadgeType.CONSISTENCY_7 ∈ db then
    ((false, calculate_current_streak recs), db)
  else
    let streak := calculate_current_streak recs
    if streak ≥ 7 then ((true, streak), BadgeType.CONSISTENCY_7 :: db)
    else ((false, streak), db)

/-- `BadgeChecker.check_30_day_consistency` from `badge_system.py`. -/
def check_30_day_consistency (recs : Records) (db : List BadgeType) :
    (Bool × ℕ) × List BadgeType :=
  if BadgeType.CONSISTENCY_30 ∈ db then
    ((false, calculate_current_streak recs), db)
  else
    let streak := calculate_current_streak recs
    if streak ≥ 30 then ((true, streak), BadgeType.CONSISTENCY_30 :: db)
    else ((false, streak), db)

/-- `BadgeChecker.check_first_workout_badge` from `badge_system.py`. -/
def check_first_workout_badge (recs : Records) (db : List BadgeType) :
    Bool × List BadgeType :=
  if BadgeType.FIRST_WORKOUT ∈ db then (false, db)
  else if !recs.activities.isEmpty then (true, BadgeType.FIRST_WORKOUT :: db)
  else (false, db)

/-- `BadgeChecker.check_calorie_burner_badges` from `badge_system.py`: the
two threshold checks run in sequence over the same lifetime total. -/
def check_calorie_burner_badges (recs : Records) (db : List BadgeType) :
    List BadgeType × List BadgeType :=
  let total_calories := total_calories_burned recs
  let r1 :=
    if total_calories ≥ 1000 ∧ BadgeType.CALORIE_BURNER_1000 ∉ db then
      ([BadgeType.CALORIE_BURNER_1000], BadgeType.CALORIE_BURNER_1000 :: db)
    else (([] : List BadgeType), db)
  let r2 :=
    if total_calories ≥ 5000 ∧ BadgeType.CALORIE_BURNER_5000 ∉ r1.2 then
      ([BadgeType.CALORIE_BURNER_5000], BadgeType.CALORIE_BURNER_5000 :: r1.2)
    else (([] : List BadgeType), r1.2)
  (r1.1 ++ r2.1, r2.2)

/-- `BadgeChecker.check_early_bird_badge` from `badge_system.py`. -/
def check_early_bird_badge (recs : Records) (db : List BadgeType) :
    Bool × List BadgeType :=
  if BadgeType.EARLY_BIRD ∈ db then (false, db)
  else if has_early_activity recs then (true, BadgeType.EARLY_BIRD :: db)
  else (false, db)

/-- The target computation at the top of `BadgeChecker.check_hydration_badge`:
`calculate_water_intake_target(profile.weight_kg, profile.activity_level) or
2500` inside `try/except` — a missing profile or a null weight raises and
falls back to 2500, a `None` or `0` result is falsy and also yields 2500. -/
def hydration_target (profile : Option Profile) : ℤ :=
  match profile with
  | none => 2500
  | some p =>
    match p.weight_kg with
    | none => 2500
    | some w =>
      match FitnessCalculator.calculate_water_intake_target w p.activity_level with
      | none => 2500
      | some t => if t = 0 then 2500 else t

/-- The `for i in range(7)` loop of `check_hydration_badge`: count days whose
water total meets the target, stopping at the first failing day. -/
def hydrationGo (recs : Records) (target : ℤ) : ℕ → ℕ → ℕ → ℕ
  | 0, _, consecutive_days => consecutive_days
  | i + 1, check_date, consecutive_days =>
    if (get_daily_total recs check_date : ℤ) ≥ target then
      hydrationGo recs target i (check_date + 1) (consecutive_days + 1)
    else consecutive_days

/-- `BadgeChecker.check_hydration_badge` from `badge_system.py`. -/
def check_hydration_badge (recs : Records) (db : List BadgeType) :
    Bool × List BadgeType :=
  if BadgeType.HYDRATION_MASTER ∈ db then (false, db)
  else
    let target := hydration_target recs.profile
    let consecutive_days := hydrationGo recs target 7 0 0
    if consecutive_days ≥ 7 then (true, BadgeType.HYDRATION_MASTER :: db)
    else (false, db)

/-- The `results` dict returned by `BadgeChecker.check_all_badges`. -/
structure Summary where
  badges_awarded : List BadgeType
  current_streak : ℕ
  total_badges : ℕ
deriving DecidableEq, Repr

/-- `BadgeChecker.check_all_badges` from `badge_system.py`: run every checker
in source order, threading the badge table, and assemble the summary. -/
def check_all_badges (recs : Records) (db0 : List BadgeType) :
    Summary × List BadgeType :=
  let r1 := check_first_workout_badge recs db0
  let r2 := check_consistency_badge recs r1.2
  let r3 := check_30_day_consistency recs r2.2
  let r4 := check_calorie_burner_badges recs r3.2
  let r5 := check_early_bird_badge recs r4.2
  let r6 := check_hydration_badge recs r5.2
  ({ badges_awarded :=
      (if r1.1 then [BadgeType.FIRST_WORKOUT] else []) ++
      (if r2.1.1 then [BadgeType.CONSISTENCY_7] else []) ++
      (if r3.1.1 then [BadgeType.CONSISTENCY_30] else []) ++
      r4.1 ++
      (if r5.1 then [BadgeType.EARLY_BIRD] else []) ++
      (if r6.1 then [BadgeType.HYDRATION_MASTER] else [])
     current_streak := r2.1.2
     total_badges := r6.2.length }, r6.2)

/-- One entry of the dict built by `BadgeChecker.get_badge_progress`. -/
structure ProgressEntry where
  current : ℕ
  required : ℕ
  percentage : ℕ
deriving DecidableEq, Repr

/-- The dict returned by `BadgeChecker.get_badge_progress`; a field is `none`
exactly when the corresponding key is absent. -/
structure BadgeProgress where
  consistency_7 : Option ProgressEntry
  consistency_30 : Option ProgressEntry
  calorie_burner_1000 : Option ProgressEntry
  calorie_burner_5000 : Option ProgressEntry
deriving DecidableEq, Repr

/-- `BadgeChecker.get_badge_progress` from `badge_system.py`.  The source
computes `min(100, int(current / required * 100))`; `int()` truncates the
quotient towards zero, embedded here as `Nat` floor division. -/
def get_badge_progress (recs : Records) (db : List BadgeType) : BadgeProgress :=
  let streak := calculate_current_streak recs
  let total_calories := total_calories_burned recs
  { consistency_7 :=
      if BadgeType.CONSISTENCY_7 ∈ db then none
      else some ⟨streak, 7, min 100 (streak * 100 / 7)⟩
    consistency_30 :=
      if BadgeType.CONSISTENCY_30 ∈ db then none
      else some ⟨streak, 30, min 100 (streak * 100 / 30)⟩
    calorie_burner_1000 :=
      if BadgeType.CALORIE_BURNER_1000 ∈ db then none
      else some ⟨total_calories, 1000, min 100 (total_calories * 100 / 1000)⟩
    calorie_burner_5000 :=
      if BadgeType.CALORIE_BURNER_5000 ∈ db then none
      else some ⟨total_calories, 5000, min 100 (total_calories * 100 / 5000)⟩ }

/-- `generate_daily_tip` from `utils.py`.  Yesterday is day offset 1; the
water and calorie aggregates over an empty record set are 0, matching the
`or 0` / empty-sum behaviour of the source. -/
def generate_daily_tip (recs : Records) : String :=
  let daily_water := get_daily_total recs 1
  if daily_water < 2000 then "Hydration Alert: Try to drink more water today."
  else
    let total_calories : ℕ :=
      ((recs.activities.filter (fun a => a.day == 1)).map (·.calories_burned)).sum
    if total_calories > 500 then "Great work! You hit a high burn yesterday."
    else "Keep up the great work! Stay consistent with your fitness journey."

/-- A `Goal` row, reduced to the fields its two properties read plus the
`status` column they ignore. -/
structure Goal where
  target_value : ℚ
  current_value : ℚ
  status : String
deriving DecidableEq, Repr

/-- `Goal.progress_percentage` from `models.py`. -/
def progress_percentage (g : Goal) : ℚ :=
  if g.target_value > 0 then
    min (pyRound2 (g.current_value / g.target_value * 100)) 100
  else 0

/-- `Goal.is_achieved` from `models.py`. -/
def is_achieved (g : Goal) : Bool :=
  decide (g.current_value ≥ g.target_value)

/-- Modelled from the spec: the progress percentage the specification
states, `min(100, round(current/required × 100))`, with Python rounding;
compared against the `int()`-truncating percentage the source computes. -/
def spec_progress_percentage (current required : ℕ) : ℤ :=
  min 100 (pyRound ((current : ℚ) / (required : ℚ) * 100))

/-- Sample user: activity records on days today, today−1 and today−3 (a gap
at today−2). -/
def recs013 : Records :=
  { activities := [⟨0, 10, 100⟩, ⟨1, 10, 100⟩, ⟨3, 10, 100⟩], water := [], profile := none }

/-- Sample user: an activity record on each of the 367 days ending today. -/
def recsLong : Records :=
  { activities := (List.range 367).map (fun d => ⟨d, 12, 10⟩), water := [], profile := none }

/-- Sample user: an activity record on each of the 6 days ending today. -/
def recsSix : Records :=
  { activities := (List.range 6).map (fun d => ⟨d, 12, 10⟩), water := [], profile := none }

/-- Sample user: yesterday has low water (500 ml) and high burn (600 kcal). -/
def recsTip : Records :=
  { activities := [⟨1, 10, 600⟩], water := [(1, 500)], profile := none }

/-- Sample user: 2500 ml of water on each of the 7 days ending today, no
profile. -/
def recsHyd : Records :=
  { activities := [], water := (List.range 7).map (fun d => (d, 2500)), profile := none }

/-- Sample user: one early-morning workout today. -/
def recsW : Records :=
  { activities := [⟨0, 6, 1200⟩], water := [], profile := none }

/-! ## Rounding evaluation lemmas -/

/-- Evaluation rule for `pyRound` once the integer part `f` of `q` is known;
lets `norm_num` compute `pyRound` on closed rationals. -/
theorem pyRound_eq {q : ℚ} {f : ℤ} (h1 : (f : ℚ) ≤ q) (h2 : q < (f : ℚ) + 1) :
    pyRound q = if q - f < 1/2 then f else if 1/2 < q - f then f + 1
      else if f % 2 = 0 then f else f + 1 := by
  have hf : ⌊q⌋ = f := Int.floor_eq_iff.mpr ⟨h1, by exact_mod_cast h2⟩
  simp only [pyRound, hf]

/-- `pyRound` rounds down when the fractional part is below one half. -/
theorem pyRound_lt_half {q : ℚ} {f : ℤ} (h1 : (f : ℚ) ≤ q) (h2 : q - f < 1/2) :
    pyRound q = f := by
  rw [pyRound_eq h1 (by linarith), if_pos h2]

/-- `pyRound` rounds up when the fractional part is above one half. -/
theorem pyRound_half_lt {q : ℚ} {f : ℤ} (h1 : q < (f : ℚ) + 1) (h2 : 1/2 < q - f) :
    pyRound q = f + 1 := by
  rw [pyRound_eq (by linarith) h1, if_neg (by linarith), if_pos h2]

/-! ## Streak loop lemmas -/

/-- Each loop iteration grows the streak counter by exactly one, so the
result is bounded by the starting counter plus the fuel. -/
theorem streakGo_le (has : ℕ → Bool) :
    ∀ fuel d streak, streakGo has fuel d streak ≤ streak + fuel := by
  intro fuel
  induction fuel with
  | zero => intro d c; simp [streakGo]
  | succ a ih =>
    intro d c
    simp only [streakGo]
    by_cases hd : has d
    · simp only [hd, if_true]
      by_cases hs : c + 1 > 365
      · simp only [hs, if_true]; omega
      · simp only [hs, if_false]
        have := ih (d + 1) (c + 1)
        omega
    · simp only [hd, Bool.false_eq_true, if_false]; omega

/-- Any fuel covering the remaining `366 - streak` possible iterations gives
the same result: the loop's own `streak > 365` break fires first. -/
theorem streakGo_fuel_irrel (has : ℕ → Bool) :
    ∀ f1 f2 d c, c ≤ 365 → 366 ≤ c + f1 → 366 ≤ c + f2 →
      streakGo has f1 d c = streakGo has f2 d c := by
  intro f1
  induction f1 with
  | zero => intro f2 d c h1 h2 _; omega
  | succ a ih =>
    intro f2 d c h1 h2 h3
    obtain ⟨b, rfl⟩ : ∃ b, f2 = b + 1 := ⟨f2 - 1, by omega⟩
    simp only [streakGo]
    by_cases hd : has d
    · simp only [hd, if_true]
      by_cases hs : c + 1 > 365
      · simp only [hs, if_true]
      · simp only [hs, if_false]
        exact ih b (d + 1) (c + 1) (by omega) (by omega) (by omega)
    · simp only [hd, Bool.false_eq_true, if_false]

/-- If the first gap ahead of `d` is `j` days away and the cap is not hit,
the loop returns exactly `streak + j`. -/
theorem streakGo_stops (has : ℕ → Bool) :
    ∀ j fuel d c, 366 ≤ c + fuel → c + j ≤ 365 →
      (∀ i, i < j → has (d + i) = true) → has (d + j) = false →
      streakGo has fuel d c = c + j := by
  intro j
  induction j with
  | zero =>
    intro fuel d c h1 _ _ hj
    obtain ⟨a, rfl⟩ : ∃ a, fuel = a + 1 := ⟨fuel - 1, by omega⟩
    have hd : has d = false := by simpa using hj
    simp [streakGo, hd]
  | succ n ih =>
    intro fuel d c h1 h2 hall hj
    obtain ⟨a, rfl⟩ : ∃ a, fuel = a + 1 := ⟨fuel - 1, by omega⟩
    have hd : has d = true := by simpa using hall 0 (by omega)
    simp only [streakGo, hd, if_true]
    have hs : ¬(c + 1 > 365) := by omega
    simp only [hs, if_false]
    have hall' : ∀ i, i < n → has (d + 1 + i) = true := by
      intro i hi
      have h := hall (i + 1) (by omega)
      rwa [show d + (i + 1) = d + 1 + i by omega] at h
    have hj' : has (d + 1 + n) = false := by
      rwa [show d + (n + 1) = d + 1 + n by omega] at hj
    have := ih a (d + 1) (c + 1) (by omega) (by omega) hall' hj'
    omega

/-- If every day reachable within the fuel has a record, the loop runs the
fuel out via the safety cap and returns 366. -/
theorem streakGo_cap (has : ℕ → Bool) :
    ∀ fuel d c, c + fuel = 366 → (∀ i, i < fuel → has (d + i) = true) →
      streakGo has fuel d c = 366 := by
  intro fuel
  induction fuel with
  | zero => intro d c h1 _; simpa [streakGo] using h1
  | succ a ih =>
    intro d c h1 hall
    have hd : has d = true := by simpa using hall 0 (by omega)
    simp only [streakGo, hd, if_true]
    by_cases hs : c + 1 > 365
    · simp only [hs, if_true]; omega
    · simp only [hs, if_false]
      refine ih (d + 1) (c + 1) (by omega) ?_
      intro i hi
      have h := hall (i + 1) (by omega)
      rwa [show d + (i + 1) = d + 1 + i by omega] at h

/-- The computed streak never exceeds 366. -/
theorem calculate_current_streak_le (recs : Records) :
    calculate_current_streak recs ≤ 366 := by
  have := streakGo_le (has_activity_on recs) 366 0 0
  simpa [calculate_current_streak] using this

/-- The computed streak is the distance to the first recordless day, capped
at 366. -/
theorem calculate_current_streak_eq_min (recs : Records)
    (h : ∃ n, has_activity_on recs n = false) :
    calculate_current_streak recs = min (Nat.find h) 366 := by
  by_cases hN : Nat.find h ≤ 365
  · have hfind : has_activity_on recs (Nat.find h) = false := Nat.find_spec h
    have hall : ∀ i, i < Nat.find h → has_activity_on recs i = true := by
      intro i hi
      have := Nat.find_min h hi
      simpa using this
    have hmain := streakGo_stops (has_activity_on recs) (Nat.find h) 366 0 0
      (by omega) (by omega) (fun i hi => by simpa using hall i hi) (by simpa using hfind)
    rw [calculate_current_streak, hmain]
    omega
  · have hall : ∀ i, i < 366 → has_activity_on recs i = true := by
      intro i hi
      have h2 := Nat.find_min h (show i < Nat.find h by omega)
      simpa using h2
    have hmain := streakGo_cap (has_activity_on recs) 366 0 0 rfl
      (fun i hi => by simpa using hall i hi)
    rw [calculate_current_streak, hmain]
    omega

/-! ## Badge checker characterisations

Every checker has the shape "if the badge kind is already present do
nothing, otherwise create it exactly when its predicate holds"; these lemmas
expose that shape as a single guarded insertion. -/

theorem check_first_workout_badge_eq (recs : Records) (db : List BadgeType) :
    check_first_workout_badge recs db =
      if BadgeType.FIRST_WORKOUT ∉ db ∧ recs.activities.isEmpty = false
      then (true, BadgeType.FIRST_WORKOUT :: db) else (false, db) := by
  rw [check_first_workout_badge]
  by_cases h1 : BadgeType.FIRST_WORKOUT ∈ db
  · simp [h1]
  · by_cases h2 : recs.activities.isEmpty <;> simp [h1, h2]

theorem check_consistency_badge_eq (recs : Records) (db : List BadgeType) :
    check_consistency_badge recs db =
      if BadgeType.CONSISTENCY_7 ∉ db ∧ 7 ≤ calculate_current_streak recs
      then ((true, calculate_current_streak recs), BadgeType.CONSISTENCY_7 :: db)
      else ((false, calculate_current_streak recs), db) := by
  rw [check_consistency_badge]
  by_cases h1 : BadgeType.CONSISTENCY_7 ∈ db
  · simp [h1]
  · by_cases h2 : 7 ≤ calculate_current_streak recs <;>
      simp [h1, h2, ge_iff_le]

theorem check_30_day_consistency_eq (recs : Records) (db : List BadgeType) :
    check_30_day_consistency recs db =
      if BadgeType.CONSISTENCY_30 ∉ db ∧ 30 ≤ calculate_current_streak recs
      then ((true, calculate_current_streak recs), BadgeType.CONSISTENCY_30 :: db)
      else ((false, calculate_current_streak recs), db) := by
  rw [check_30_day_consistency]
  by_cases h1 : BadgeType.CONSISTENCY_30 ∈ db
  · simp [h1]
  · by_cases h2 : 30 ≤ calculate_current_streak recs <;>
      simp [h1, h2, ge_iff_le]

theorem check_early_bird_badge_eq (recs : Records) (db : List BadgeType) :
    check_early_bird_badge recs db =
      if BadgeType.EARLY_BIRD ∉ db ∧ has_early_activity recs = true
      then (true, BadgeType.EARLY_BIRD :: db) else (false, db) := by
  rw [check_early_bird_badge]
  by_cases h1 : BadgeType.EARLY_BIRD ∈ db
  · simp [h1]
  · by_cases h2 : has_early_activity recs <;> simp [h1, h2]

theorem check_hydration_badge_eq (recs : Records) (db : List BadgeType) :
    check_hydration_badge recs db =
      if BadgeType.HYDRATION_MASTER ∉ db ∧
          7 ≤ hydrationGo recs (hydration_target recs.profile) 7 0 0
      then (true, BadgeType.HYDRATION_MASTER :: db) else (false, db) := by
  rw [check_hydration_badge]
  by_cases h1 : BadgeType.HYDRATION_MASTER ∈ db
  · simp [h1]
  · by_cases h2 : 7 ≤ hydrationGo recs (hydration_target recs.profile) 7 0 0 <;>
      simp [h1, h2, ge_iff_le]

theorem check_calorie_burner_badges_eq (recs : Records) (db : List BadgeType) :
    check_calorie_burner_badges recs db =
      if 1000 ≤ total_calories_burned recs ∧ BadgeType.CALORIE_BURNER_1000 ∉ db then
        if 5000 ≤ total_calories_burned recs ∧ BadgeType.CALORIE_BURNER_5000 ∉ db then
          ([BadgeType.CALORIE_BURNER_1000, BadgeType.CALORIE_BURNER_5000],
           BadgeType.CALORIE_BURNER_5000 :: BadgeType.CALORIE_BURNER_1000 :: db)
        else ([BadgeType.CALORIE_BURNER_1000], BadgeType.CALORIE_BURNER_1000 :: db)
      else
        if 5000 ≤ total_calories_burned recs ∧ BadgeType.CALORIE_BURNER_5000 ∉ db then
          ([BadgeType.CALORIE_BURNER_5000], BadgeType.CALORIE_BURNER_5000 :: db)
        else ([], db) := by
  simp only [check_calorie_burner_badges, ge_iff_le]
  split_ifs <;> simp_all

/-- Membership after a guarded insertion. -/
theorem mem_guarded_insert (db : List BadgeType) (k x : BadgeType) (c : Prop)
    [Decidable c] :
    (x ∈ (if k ∉ db ∧ c then k :: db else db)) ↔ x ∈ db ∨ (x = k ∧ c) := by
  split_ifs with h
  · simp only [List.mem_cons]
    constructor
    · rintro (rfl | hx)
      · exact Or.inr ⟨rfl, h.2⟩
      · exact Or.inl hx
    · rintro (hx | ⟨rfl, _⟩)
      · exact Or.inr hx
      · exact Or.inl rfl
  · constructor
    · exact Or.inl
    · rintro (hx | ⟨rfl, hc⟩)
      · exact hx
      · by_contra
        exact h ⟨fun hmem => by simp_all, hc⟩

/-- Counts stay at most one across a guarded insertion. -/
theorem count_guarded_insert (db : List BadgeType) (k x : BadgeType) (c : Prop)
    [Decidable c] (h : db.count x ≤ 1) :
    (if k ∉ db ∧ c then k :: db else db).count x ≤ 1 := by
  split_ifs with hc
  · rcases eq_or_ne x k with rfl | hne
    · rw [List.count_cons_self, List.count_eq_zero.mpr hc.1]
    · rw [List.count_cons_of_ne hne]
      exact h
  · exact h

theorem check_first_workout_badge_mem (recs : Records) (db : List BadgeType)
    (x : BadgeType) :
    x ∈ (check_first_workout_badge recs db).2 ↔
      x ∈ db ∨ (x = BadgeType.FIRST_WORKOUT ∧ recs.activities.isEmpty = false) := by
  rw [check_first_workout_badge_eq, apply_ite Prod.snd]
  exact mem_guarded_insert db _ x _

theorem check_consistency_badge_mem (recs : Records) (db : List BadgeType)
    (x : BadgeType) :
    x ∈ (check_consistency_badge recs db).2 ↔
      x ∈ db ∨ (x = BadgeType.CONSISTENCY_7 ∧ 7 ≤ calculate_current_streak recs) := by
  rw [check_consistency_badge_eq, apply_ite Prod.snd]
  exact mem_guarded_insert db _ x _

theorem check_30_day_consistency_mem (recs : Records) (db : List BadgeType)
    (x : BadgeType) :
    x ∈ (check_30_day_consistency recs db).2 ↔
      x ∈ db ∨ (x = BadgeType.CONSISTENCY_30 ∧ 30 ≤ calculate_current_streak recs) := by
  rw [check_30_day_consistency_eq, apply_ite Prod.snd]
  exact mem_guarded_insert db _ x _

theorem check_early_bird_badge_mem (recs : Records) (db : List BadgeType)
    (x : BadgeType) :
    x ∈ (check_early_bird_badge recs db).2 ↔
      x ∈ db ∨ (x = BadgeType.EARLY_BIRD ∧ has_early_activity recs = true) := by
  rw [check_early_bird_badge_eq, apply_ite Prod.snd]
  exact mem_guarded_insert db _ x _

theorem check_hydration_badge_mem (recs : Records) (db : List BadgeType)
    (x : BadgeType) :
    x ∈ (check_hydration_badge recs db).2 ↔
      x ∈ db ∨ (x = BadgeType.HYDRATION_MASTER ∧
        7 ≤ hydrationGo recs (hydration_target recs.profile) 7 0 0) := by
  rw [check_hydration_badge_eq, apply_ite Prod.snd]
  exact mem_guarded_insert db _ x _

theorem check_calorie_burner_badges_mem (recs : Records) (db : List BadgeType)
    (x : BadgeType) :
    x ∈ (check_calorie_burner_badges recs db).2 ↔
      x ∈ db ∨
      (x = BadgeType.CALORIE_BURNER_1000 ∧ 1000 ≤ total_calories_burned recs) ∨
      (x = BadgeType.CALORIE_BURNER_5000 ∧ 5000 ≤ total_calories_burned recs) := by
  rw [check_calorie_burner_badges_eq]
  by_cases h1 : 1000 ≤ total_calories_burned recs ∧ BadgeType.CALORIE_BURNER_1000 ∉ db
  · rw [if_pos h1]
    by_cases h2 : 5000 ≤ total_calories_burned recs ∧ BadgeType.CALORIE_BURNER_5000 ∉ db
    · rw [if_pos h2]
      show x ∈ BadgeType.CALORIE_BURNER_5000 :: BadgeType.CALORIE_BURNER_1000 :: db ↔ _
      simp only [List.mem_cons]
      constructor
      · rintro (rfl | rfl | hx)
        · exact Or.inr (Or.inr ⟨rfl, h2.1⟩)
        · exact Or.inr (Or.inl ⟨rfl, h1.1⟩)
        · exact Or.inl hx
      · rintro (hx | ⟨rfl, _⟩ | ⟨rfl, _⟩)
        · exact Or.inr (Or.inr hx)
        · exact Or.inr (Or.inl rfl)
        · exact Or.inl rfl
    · rw [if_neg h2]
      push_neg at h2
      show x ∈ BadgeType.CALORIE_BURNER_1000 :: db ↔ _
      simp only [List.mem_cons]
      constructor
      · rintro (rfl | hx)
        · exact Or.inr (Or.inl ⟨rfl, h1.1⟩)
        · exact Or.inl hx
      · rintro (hx | ⟨rfl, _⟩ | ⟨rfl, h5⟩)
        · exact Or.inr hx
        · exact Or.inl rfl
        · exact Or.inr (h2 h5)
  · rw [if_neg h1]
    push_neg at h1
    by_cases h2 : 5000 ≤ total_calories_burned recs ∧ BadgeType.CALORIE_BURNER_5000 ∉ db
    · rw [if_pos h2]
      show x ∈ BadgeType.CALORIE_BURNER_5000 :: db ↔ _
      simp only [List.mem_cons]
      constructor
      · rintro (rfl | hx)
        · exact Or.inr (Or.inr ⟨rfl, h2.1⟩)
        · exact Or.inl hx
      · rintro (hx | ⟨rfl, hk⟩ | ⟨rfl, _⟩)
        · exact Or.inr hx
        · exact Or.inr (h1 hk)
        · exact Or.inl rfl
    · rw [if_neg h2]
      push_neg at h2
      show x ∈ db ↔ _
      constructor
      · exact Or.inl
      · rintro (hx | ⟨rfl, hk⟩ | ⟨rfl, hk⟩)
        · exact hx
        · exact h1 hk
        · exact h2 hk

theorem check_first_workout_badge_count (recs : Records) (db : List BadgeType)
    (x : BadgeType) (h : db.count x ≤ 1) :
    ((check_first_workout_badge recs db).2).count x ≤ 1 := by
  rw [check_first_workout_badge_eq, apply_ite Prod.snd]
  exact count_guarded_insert db _ x _ h

theorem check_consistency_badge_count (recs : Records) (db : List BadgeType)
    (x : BadgeType) (h : db.count x ≤ 1) :
    ((check_consistency_badge recs db).2).count x ≤ 1 := by
  rw [check_consistency_badge_eq, apply_ite Prod.snd]
  exact count_guarded_insert db _ x _ h

theorem check_30_day_consistency_count (recs : Records) (db : List BadgeType)
    (x : BadgeType) (h : db.count x ≤ 1) :
    ((check_30_day_consistency recs db).2).count x ≤ 1 := by
  rw [check_30_day_consistency_eq, apply_ite Prod.snd]
  exact count_guarded_insert db _ x _ h

theorem check_early_bird_badge_count (recs : Records) (db : List BadgeType)
    (x : BadgeType) (h : db.count x ≤ 1) :
    ((check_early_bird_badge recs db).2).count x ≤ 1 := by
  rw [check_early_bird_badge_eq, apply_ite Prod.snd]
  exact count_guarded_insert db _ x _ h

theorem check_hydration_badge_count (recs : Records) (db : List BadgeType)
    (x : BadgeType) (h : db.count x ≤ 1) :
    ((check_hydration_badge recs db).2).count x ≤ 1 := by
  rw [check_hydration_badge_eq, apply_ite Prod.snd]
  exact count_guarded_insert db _ x _ h

theorem check_calorie_burner_badges_count (recs : Records) (db : List BadgeType)
    (x : BadgeType) (h : db.count x ≤ 1) :
    ((check_calorie_burner_badges recs db).2).count x ≤ 1 := by
  rw [check_calorie_burner_badges_eq]
  split_ifs with h1 h2 h2
  · show (BadgeType.CALORIE_BURNER_5000 :: BadgeType.CALORIE_BURNER_1000 :: db).count x ≤ 1
    rcases eq_or_ne x BadgeType.CALORIE_BURNER_5000 with rfl | h5
    · rw [List.count_cons_self, List.count_cons_of_ne (by simp),
        List.count_eq_zero.mpr h2.2]
    · rw [List.count_cons_of_ne h5]
      rcases eq_or_ne x BadgeType.CALORIE_BURNER_1000 with rfl | hone
      · rw [List.count_cons_self, List.count_eq_zero.mpr h1.2]
      · rw [List.count_cons_of_ne hone]
        exact h
  · show (BadgeType.CALORIE_BURNER_1000 :: db).count x ≤ 1
    rcases eq_or_ne x BadgeType.CALORIE_BURNER_1000 with rfl | hone
    · rw [List.count_cons_self, List.count_eq_zero.mpr h1.2]
    · rw [List.count_cons_of_ne hone]
      exact h
  · show (BadgeType.CALORIE_BURNER_5000 :: db).count x ≤ 1
    rcases eq_or_ne x BadgeType.CALORIE_BURNER_5000 with rfl | h5
    · rw [List.count_cons_self, List.count_eq_zero.mpr h2.2]
    · rw [List.count_cons_of_ne h5]
      exact h
  · exact h

/-! ## Aggregate check: state evolution, idempotence, uniqueness -/

set_option maxHeartbeats 1000000 in
theorem check_all_badges_mem (recs : Records) (db0 : List BadgeType) (x : BadgeType) :
    x ∈ (check_all_badges recs db0).2 ↔
      x ∈ db0 ∨
      (x = BadgeType.FIRST_WORKOUT ∧ recs.activities.isEmpty = false) ∨
      (x = BadgeType.CONSISTENCY_7 ∧ 7 ≤ calculate_current_streak recs) ∨
      (x = BadgeType.CONSISTENCY_30 ∧ 30 ≤ calculate_current_streak recs) ∨
      (x = BadgeType.CALORIE_BURNER_1000 ∧ 1000 ≤ total_calories_burned recs) ∨
      (x = BadgeType.CALORIE_BURNER_5000 ∧ 5000 ≤ total_calories_burned recs) ∨
      (x = BadgeType.EARLY_BIRD ∧ has_early_activity recs = true) ∨
      (x = BadgeType.HYDRATION_MASTER ∧
        7 ≤ hydrationGo recs (hydration_target recs.profile) 7 0 0) := by
  simp only [check_all_badges]
  rw [check_hydration_badge_mem, check_early_bird_badge_mem,
    check_calorie_burner_badges_mem, check_30_day_consistency_mem,
    check_consistency_badge_mem, check_first_workout_badge_mem]
  tauto

/-- If every predicate that holds already has its badge in the table, the
aggregate check awards nothing and leaves the table unchanged. -/
theorem check_all_badges_stable (recs : Records) (db1 : List BadgeType)
    (hfw : recs.activities.isEmpty = false → BadgeType.FIRST_WORKOUT ∈ db1)
    (h7 : 7 ≤ calculate_current_streak recs → BadgeType.CONSISTENCY_7 ∈ db1)
    (h30 : 30 ≤ calculate_current_streak recs → BadgeType.CONSISTENCY_30 ∈ db1)
    (hcal1 : 1000 ≤ total_calories_burned recs → BadgeType.CALORIE_BURNER_1000 ∈ db1)
    (hcal5 : 5000 ≤ total_calories_burned recs → BadgeType.CALORIE_BURNER_5000 ∈ db1)
    (heb : has_early_activity recs = true → BadgeType.EARLY_BIRD ∈ db1)
    (hhy : 7 ≤ hydrationGo recs (hydration_target recs.profile) 7 0 0 →
      BadgeType.HYDRATION_MASTER ∈ db1) :
    check_all_badges recs db1 =
      ({ badges_awarded := [], current_streak := calculate_current_streak recs,
         total_badges := db1.length }, db1) := by
  have n1 : check_first_workout_badge recs db1 = (false, db1) := by
    rw [check_first_workout_badge_eq, if_neg (by tauto)]
  have n2 : check_consistency_badge recs db1 =
      ((false, calculate_current_streak recs), db1) := by
    rw [check_consistency_badge_eq, if_neg (by tauto)]
  have n3 : check_30_day_consistency recs db1 =
      ((false, calculate_current_streak recs), db1) := by
    rw [check_30_day_consistency_eq, if_neg (by tauto)]
  have n4 : check_calorie_burner_badges recs db1 = ([], db1) := by
    rw [check_calorie_burner_badges_eq, if_neg (by tauto), if_neg (by tauto)]
  have n5 : check_early_bird_badge recs db1 = (false, db1) := by
    rw [check_early_bird_badge_eq, if_neg (by tauto)]
  have n6 : check_hydration_badge recs db1 = (false, db1) := by
    rw [check_hydration_badge_eq, if_neg (by tauto)]
  simp only [check_all_badges, n1, n2, n3, n4, n5, n6]
  simp

/-- A second aggregate run over unchanged records awards nothing and leaves
the badge table exactly as the first run left it. -/
theorem check_all_badges_idem (recs : Records) (db0 : List BadgeType) :
    check_all_badges recs ((check_all_badges recs db0).2) =
      ({ badges_awarded := [],
         current_streak := calculate_current_streak recs,
         total_badges := (check_all_badges recs db0).2.length },
       (check_all_badges recs db0).2) := by
  apply check_all_badges_stable <;>
    · intro hp
      exact (check_all_badges_mem recs db0 _).mpr (by tauto)

theorem check_all_badges_count (recs : Records) (db0 : List BadgeType)
    (x : BadgeType) (h : db0.count x ≤ 1) :
    ((check_all_badges recs db0).2).count x ≤ 1 := by
  simp only [check_all_badges]
  exact check_hydration_badge_count _ _ _ (check_early_bird_badge_count _ _ _
    (check_calorie_burner_badges_count _ _ _ (check_30_day_consistency_count _ _ _
    (check_consistency_badge_count _ _ _
    (check_first_workout_badge_count _ _ _ h)))))

/-! ## Hydration loop lemmas -/

theorem hydrationGo_le (recs : Records) (t : ℤ) :
    ∀ n d c, hydrationGo recs t n d c ≤ c + n := by
  intro n
  induction n with
  | zero => intro d c; simp [hydrationGo]
  | succ m ih =>
    intro d c
    simp only [hydrationGo]
    by_cases hd : (get_daily_total recs d : ℤ) ≥ t
    · rw [if_pos hd]
      have := ih (d + 1) (c + 1)
      omega
    · rw [if_neg hd]
      omega

/-- The loop returns the full count exactly when every inspected day meets
the target. -/
theorem hydrationGo_full_iff (recs : Records) (t : ℤ) :
    ∀ n d c, hydrationGo recs t n d c = c + n ↔
      ∀ i, i < n → t ≤ (get_daily_total recs (d + i) : ℤ) := by
  intro n
  induction n with
  | zero => intro d c; simp [hydrationGo]
  | succ m ih =>
    intro d c
    simp only [hydrationGo]
    by_cases hd : (get_daily_total recs d : ℤ) ≥ t
    · rw [if_pos hd]
      constructor
      · intro heq i hi
        rcases Nat.eq_zero_or_pos i with rfl | hpos
        · simpa using hd
        · obtain ⟨j, rfl⟩ : ∃ j, i = j + 1 := ⟨i - 1, by omega⟩
          have h2 := (ih (d + 1) (c + 1)).mp (by omega)
          have h3 := h2 j (by omega)
          rwa [show d + 1 + j = d + (j + 1) by omega] at h3
      · intro hall
        have h2 := (ih (d + 1) (c + 1)).mpr (fun i hi => by
          have h3 := hall (i + 1) (by omega)
          rwa [show d + (i + 1) = d + 1 + i by omega] at h3)
        omega
    · rw [if_neg hd]
      constructor
      · intro heq; omega
      · intro hall
        exact absurd (by simpa using hall 0 (by omega)) hd

/-- The award condition of the hydration check: all 7 days ending today meet
the target. -/
theorem hydration_seven_iff (recs : Records) (t : ℤ) :
    7 ≤ hydrationGo recs t 7 0 0 ↔
      ∀ i, i < 7 → t ≤ (get_daily_total recs i : ℤ) := by
  have hle := hydrationGo_le recs t 7 0 0
  constructor
  · intro h
    have heq : hydrationGo recs t 7 0 0 = 0 + 7 := by omega
    have h2 := (hydrationGo_full_iff recs t 7 0 0).mp heq
    intro i hi
    simpa using h2 i hi
  · intro hall
    have h2 := (hydrationGo_full_iff recs t 7 0 0).mpr (fun i hi => by simpa using hall i hi)
    omega

/-- Day-by-day description of `recsLong`: a record on each of days 0..366. -/
theorem recsLong_has (i : ℕ) : has_activity_on recsLong i = true ↔ i < 367 := by
  simp only [recsLong, has_activity_on, List.any_eq_true, List.mem_map, List.mem_range,
    beq_iff_eq]
  constructor
  · rintro ⟨a, ⟨d, hd, rfl⟩, hday⟩
    have hdi : d = i := hday
    omega
  · intro hi
    exact ⟨⟨i, 12, 10⟩, ⟨i, hi, rfl⟩, rfl⟩

/-- The streak the code computes for `recsLong` is the capped 366. -/
theorem recsLong_streak : calculate_current_streak recsLong = 366 := by
  rw [calculate_current_streak]
  exact streakGo_cap _ 366 0 0 rfl (fun i hi => (recsLong_has (0 + i)).mpr (by omega))

/-! ## Claims -/

/-- Claim C1: at most one badge record ever exists per (user, badge kind).
Each checker tests for presence first and is a no-op when the badge is
already present; running the aggregate check twice in succession over
unchanged records awards nothing new on the second run and leaves the badge
table unchanged; and a table holding each kind at most once keeps that
property across a run. -/
theorem claim_C1 (recs : Records) (db : List BadgeType) :
    ((check_all_badges recs ((check_all_badges recs db).2)).1.badges_awarded = [] ∧
     (check_all_badges recs ((check_all_badges recs db).2)).2 =
       (check_all_badges recs db).2) ∧
    (∀ k : BadgeType, db.count k ≤ 1 → ((check_all_badges recs db).2).count k ≤ 1) ∧
    (BadgeType.FIRST_WORKOUT ∈ db → check_first_workout_badge recs db = (false, db)) ∧
    (BadgeType.CONSISTENCY_7 ∈ db →
      check_consistency_badge recs db = ((false, calculate_current_streak recs), db)) ∧
    (BadgeType.CONSISTENCY_30 ∈ db →
      check_30_day_consistency recs db = ((false, calculate_current_streak recs), db)) ∧
    (BadgeType.CALORIE_BURNER_1000 ∈ db → BadgeType.CALORIE_BURNER_5000 ∈ db →
      check_calorie_burner_badges recs db = ([], db)) ∧
    (BadgeType.EARLY_BIRD ∈ db → check_early_bird_badge recs db = (false, db)) ∧
    (BadgeType.HYDRATION_MASTER ∈ db → check_hydration_badge recs db = (false, db)) := by
  refine ⟨⟨?_, ?_⟩, fun k => check_all_badges_count recs db k, ?_, ?_, ?_, ?_, ?_, ?_⟩
  · rw [check_all_badges_idem]
  · rw [check_all_badges_idem]
  · intro h; rw [check_first_workout_badge_eq, if_neg (by tauto)]
  · intro h; rw [check_consistency_badge_eq, if_neg (by tauto)]
  · intro h; rw [check_30_day_consistency_eq, if_neg (by tauto)]
  · intro h1 h5
    rw [check_calorie_burner_badges_eq, if_neg (by tauto), if_neg (by tauto)]
  · intro h; rw [check_early_bird_badge_eq, if_neg (by tauto)]
  · intro h; rw [check_hydration_badge_eq, if_neg (by tauto)]

/-- Witness for C1: concrete records, empty badge table. -/
theorem claim_C1_witness :
    ((check_all_badges recsW ((check_all_badges recsW []).2)).1.badges_awarded = [] ∧
     (check_all_badges recsW ((check_all_badges recsW []).2)).2 =
       (check_all_badges recsW []).2) ∧
    ((check_all_badges recsW []).2).count BadgeType.CONSISTENCY_7 ≤ 1 :=
  ⟨(claim_C1 recsW []).1, (claim_C1 recsW []).2.1 BadgeType.CONSISTENCY_7 (by decide)⟩

/-- Claim C2 (amended): the computed current streak equals the number of
consecutive calendar days counted backward from today with at least one
activity record, stopping at the first day without one, capped at 366 by
the safety bound; records on days {today, today−1, today−3} give streak 2;
and the 7-day consistency badge is awarded exactly when that streak is at
least 7 and the badge is not already present. -/
theorem claim_C2 :
    (∀ (recs : Records) (h : ∃ n, has_activity_on recs n = false),
      calculate_current_streak recs = min (Nat.find h) 366) ∧
    calculate_current_streak recs013 = 2 ∧
    (∀ (recs : Records) (db : List BadgeType),
      ((check_consistency_badge recs db).1.1 = true ↔
        BadgeType.CONSISTENCY_7 ∉ db ∧ 7 ≤ calculate_current_streak recs) ∧
      (check_consistency_badge recs db).1.2 = calculate_current_streak recs ∧
      (check_consistency_badge recs db).2 =
        (if BadgeType.CONSISTENCY_7 ∉ db ∧ 7 ≤ calculate_current_streak recs
         then BadgeType.CONSISTENCY_7 :: db else db)) := by
  refine ⟨calculate_current_streak_eq_min, by decide, ?_⟩
  intro recs db
  rw [check_consistency_badge_eq]
  by_cases hc : BadgeType.CONSISTENCY_7 ∉ db ∧ 7 ≤ calculate_current_streak recs
  · rw [if_pos hc, if_pos hc]
    exact ⟨by simp [hc.1, hc.2], rfl, rfl⟩
  · rw [if_neg hc, if_neg hc]
    exact ⟨by simp [hc], rfl, rfl⟩

/-- Counterexample to C2 as stated: a user with activity records on each of
the 367 days ending today has a consecutive-day run of 367 (the first
recordless day is 367 days back), yet the code computes streak 366. -/
theorem claim_C2_counterexample :
    (∀ i, i < 367 → has_activity_on recsLong i = true) ∧
    has_activity_on recsLong 367 = false ∧
    calculate_current_streak recsLong ≠ 367 ∧
    calculate_current_streak recsLong = 366 := by
  refine ⟨fun i hi => (recsLong_has i).mpr hi, ?_, ?_, recsLong_streak⟩
  · exact Bool.eq_false_iff.mpr (fun h => by have := (recsLong_has 367).mp h; omega)
  · rw [recsLong_streak]
    omega

/-- Witness for C2: the gap example instantiated. -/
theorem claim_C2_witness :
    calculate_current_streak recs013 =
      min (Nat.find (⟨2, by decide⟩ : ∃ n, has_activity_on recs013 n = false)) 366 :=
  claim_C2.1 recs013 _

/-- Claim C3 (amended): for each streak- or calorie-threshold badge not yet
earned, progress is {current, required, min(100, ⌊current/required·100⌋)} —
the source truncates with `int()` rather than rounding — and badges already
earned are omitted from the report. -/
theorem claim_C3 (recs : Records) (db : List BadgeType) :
    ((BadgeType.CONSISTENCY_7 ∈ db → (get_badge_progress recs db).consistency_7 = none) ∧
     (BadgeType.CONSISTENCY_7 ∉ db → (get_badge_progress recs db).consistency_7 =
       some ⟨calculate_current_streak recs, 7,
         min 100 (calculate_current_streak recs * 100 / 7)⟩)) ∧
    ((BadgeType.CONSISTENCY_30 ∈ db → (get_badge_progress recs db).consistency_30 = none) ∧
     (BadgeType.CONSISTENCY_30 ∉ db → (get_badge_progress recs db).consistency_30 =
       some ⟨calculate_current_streak recs, 30,
         min 100 (calculate_current_streak recs * 100 / 30)⟩)) ∧
    ((BadgeType.CALORIE_BURNER_1000 ∈ db →
       (get_badge_progress recs db).calorie_burner_1000 = none) ∧
     (BadgeType.CALORIE_BURNER_1000 ∉ db →
       (get_badge_progress recs db).calorie_burner_1000 =
       some ⟨total_calories_burned recs, 1000,
         min 100 (total_calories_burned recs * 100 / 1000)⟩)) ∧
    ((BadgeType.CALORIE_BURNER_5000 ∈ db →
       (get_badge_progress recs db).calorie_burner_5000 = none) ∧
     (BadgeType.CALORIE_BURNER_5000 ∉ db →
       (get_badge_progress recs db).calorie_burner_5000 =
       some ⟨total_calories_burned recs, 5000,
         min 100 (total_calories_burned recs * 100 / 5000)⟩)) := by
  refine ⟨⟨?_, ?_⟩, ⟨?_, ?_⟩, ⟨?_, ?_⟩, ⟨?_, ?_⟩⟩ <;> intro h <;>
    simp [get_badge_progress, h]

/-- Counterexample to C3 as stated: a 6-day streak reports percentage 85
(`int(6/7·100)`), while the claimed `min(100, round(6/7·100))` is 86. -/
theorem claim_C3_counterexample :
    (get_badge_progress recsSix []).consistency_7 = some ⟨6, 7, 85⟩ ∧
    spec_progress_percentage 6 7 = 86 := by
  constructor
  · decide
  · rw [spec_progress_percentage, pyRound_eq (f := 85) (by norm_num) (by norm_num)]
    norm_num

/-- Witness for C3: the unearned 7-day consistency entry at a 6-day streak. -/
theorem claim_C3_witness :
    (get_badge_progress recsSix []).consistency_7 =
      some ⟨calculate_current_streak recsSix, 7,
        min 100 (calculate_current_streak recsSix * 100 / 7)⟩ :=
  (claim_C3 recsSix []).1.2 (by decide)

/-- Claim C9: the backward streak scan terminates within the safety cap for
every record set: fuel 366 is as good as any larger fuel, the returned
streak never exceeds 366, and a user with a record on every past day gets
exactly 366. -/
theorem claim_C9 :
    (∀ recs : Records, calculate_current_streak recs ≤ 366) ∧
    (∀ (has : ℕ → Bool) (extra : ℕ),
      streakGo has (366 + extra) 0 0 = streakGo has 366 0 0) ∧
    calculate_current_streak recsLong = 366 := by
  refine ⟨calculate_current_streak_le, ?_, recsLong_streak⟩
  intro has extra
  exact streakGo_fuel_irrel has (366 + extra) 366 0 0 (by omega) (by omega) (by omega)

/-- Claim C4: the water-intake target is 35·weight scaled by 1.3 for the
ATHLETE tier, 1.15 for ACTIVE and 1 otherwise, rounded to an integer number
of milliliters; 70 kg gives 2450 ml sedentary and 3185 ml athlete; a
non-positive weight gives `none`. -/
theorem claim_C4 :
    FitnessCalculator.calculate_water_intake_target 70 "SEDENTARY" = some 2450 ∧
    FitnessCalculator.calculate_water_intake_target 70 "ATHLETE" = some 3185 ∧
    (∀ (w : ℚ) (lvl : String), w ≤ 0 →
      FitnessCalculator.calculate_water_intake_target w lvl = none) ∧
    (∀ w : ℚ, 0 < w →
      FitnessCalculator.calculate_water_intake_target w "ATHLETE" =
        some (pyRound (35 * w * 1.3)) ∧
      FitnessCalculator.calculate_water_intake_target w "ACTIVE" =
        some (pyRound (35 * w * 1.15)) ∧
      (∀ lvl : String, lvl ≠ "ATHLETE" → lvl ≠ "ACTIVE" →
        FitnessCalculator.calculate_water_intake_target w lvl =
          some (pyRound (35 * w * 1)))) := by
  refine ⟨?_, ?_, ?_, ?_⟩
  · simp only [FitnessCalculator.calculate_water_intake_target]
    rw [if_neg (by norm_num), if_neg (by decide), if_neg (by decide),
      show (70 : ℚ) * 35 = 2450 by norm_num,
      pyRound_lt_half (f := 2450) (by norm_num) (by norm_num)]
  · simp only [FitnessCalculator.calculate_water_intake_target]
    rw [if_neg (by norm_num), if_pos trivial,
      show (70 : ℚ) * 35 * 1.3 = 3185 by norm_num,
      pyRound_lt_half (f := 3185) (by norm_num) (by norm_num)]
  · intro w lvl hw
    simp only [FitnessCalculator.calculate_water_intake_target]
    rw [if_pos hw]
  · intro w hw
    have hw' : ¬(w ≤ 0) := not_le.mpr hw
    refine ⟨?_, ?_, ?_⟩
    · simp only [FitnessCalculator.calculate_water_intake_target]
      rw [if_neg hw', if_pos trivial, show w * 35 * 1.3 = 35 * w * 1.3 by ring]
    · simp only [FitnessCalculator.calculate_water_intake_target]
      rw [if_neg hw', if_neg (by decide), if_pos trivial,
        show w * 35 * 1.15 = 35 * w * 1.15 by ring]
    · intro lvl h1 h2
      simp only [FitnessCalculator.calculate_water_intake_target]
      rw [if_neg hw', if_neg h1, if_neg h2, show w * 35 = 35 * w * 1 by ring]

/-- Witness for C4: a negative weight and a positive ACTIVE-tier weight. -/
theorem claim_C4_witness :
    FitnessCalculator.calculate_water_intake_target (-3) "ACTIVE" = none ∧
    FitnessCalculator.calculate_water_intake_target 50 "ACTIVE" =
      some (pyRound (35 * 50 * 1.15)) :=
  ⟨claim_C4.2.2.1 (-3) "ACTIVE" (by norm_num),
   (claim_C4.2.2.2 50 (by norm_num)).2.1⟩

/-- Claim C7: every calculator function returns `none` on non-positive
domain input instead of failing; BMI(70, 175) = 22.86 while a zero weight or
height is invalid; a computed age is never negative. -/
theorem claim_C7 :
    FitnessCalculator.calculate_bmi 70 175 = some 22.86 ∧
    FitnessCalculator.calculate_bmi 0 175 = none ∧
    FitnessCalculator.calculate_bmi 70 0 = none ∧
    (∀ w h : ℚ, w ≤ 0 ∨ h ≤ 0 → FitnessCalculator.calculate_bmi w h = none) ∧
    (∀ (w h : ℚ) (a : ℤ) (g : String), w ≤ 0 ∨ h ≤ 0 ∨ a ≤ 0 →
      FitnessCalculator.calculate_bmr w h a g = none) ∧
    (∀ (b : ℚ) (lvl : String), b ≤ 0 → FitnessCalculator.calculate_tdee b lvl = none) ∧
    (∀ (act : String) (d : ℤ) (w : ℚ), w ≤ 0 ∨ d ≤ 0 →
      FitnessCalculator.estimate_calories_burned act d w = none) ∧
    (∀ (h : ℚ) (g : String), h ≤ 0 →
      FitnessCalculator.calculate_ideal_weight_range h g = none) ∧
    (∀ (t : ℚ) (g : String), t ≤ 0 → FitnessCalculator.calculate_macros t g = none) ∧
    (∀ (w : ℚ) (lvl : String), w ≤ 0 →
      FitnessCalculator.calculate_water_intake_target w lvl = none) ∧
    (∀ (today dob : Date) (a : ℤ),
      FitnessCalculator.calculate_age today dob = some a → 0 ≤ a) := by
  refine ⟨?_, ?_, ?_, ?_, ?_, ?_, ?_, ?_, ?_, ?_, ?_⟩
  · simp only [FitnessCalculator.calculate_bmi]
    rw [if_neg (by norm_num)]
    simp only [pyRound2]
    rw [show (70 : ℚ) / ((175 / 100) ^ 2) * 100 = 16000 / 7 by norm_num,
      pyRound_half_lt (f := 2285) (by norm_num) (by norm_num)]
    norm_num
  · simp only [FitnessCalculator.calculate_bmi]
    rw [if_pos (Or.inl (by norm_num))]
  · simp only [FitnessCalculator.calculate_bmi]
    rw [if_pos (Or.inr (by norm_num))]
  · intro w h hyp
    simp only [FitnessCalculator.calculate_bmi]
    rw [if_pos hyp]
  · intro w h a g hyp
    simp only [FitnessCalculator.calculate_bmr]
    rw [if_pos hyp]
  · intro b lvl hb
    simp only [FitnessCalculator.calculate_tdee]
    rw [if_pos hb]
  · intro act d w hyp
    simp only [FitnessCalculator.estimate_calories_burned]
    rw [if_pos hyp]
  · intro h g hh
    simp only [FitnessCalculator.calculate_ideal_weight_range]
    rw [if_pos hh]
  · intro t g ht
    simp only [FitnessCalculator.calculate_macros]
    rw [if_pos ht]
  · intro w lvl hw
    simp only [FitnessCalculator.calculate_water_intake_target]
    rw [if_pos hw]
  · intro today dob a ha
    simp only [FitnessCalculator.calculate_age] at ha
    split at ha <;> split at ha
    · obtain rfl := Option.some.inj ha
      assumption
    · exact absurd ha (by simp)
    · obtain rfl := Option.some.inj ha
      assumption
    · exact absurd ha (by simp)

/-- Witness for C7: a negative-weight BMI and a zero BMR input. -/
theorem claim_C7_witness :
    FitnessCalculator.calculate_bmi (-1) 175 = none ∧
    FitnessCalculator.calculate_tdee 0 "ACTIVE" = none :=
  ⟨claim_C7.2.2.2.1 (-1) 175 (Or.inl (by norm_num)),
   claim_C7.2.2.2.2.2.1 0 "ACTIVE" (by norm_num)⟩

/-- Claim C8: the macro split divides tdee by the goal's ratios —
WEIGHT_LOSS 40/30/30, MUSCLE_GAIN 30/50/20, and 30/40/30 for MAINTAIN or any
other goal — converting calorie shares to grams by 4/4/9, each rounded to 2
decimals; Macros(2500, MAINTAIN) = {187.5, 250.0, 83.33}. -/
theorem claim_C8 :
    FitnessCalculator.calculate_macros 2500 "MAINTAIN" =
      some ⟨187.5, 250, 83.33, 2500⟩ ∧
    (∀ t : ℚ, 0 < t →
      FitnessCalculator.calculate_macros t "WEIGHT_LOSS" =
        some ⟨pyRound2 (t * 0.40 / 4), pyRound2 (t * 0.30 / 4),
          pyRound2 (t * 0.30 / 9), pyRound2 t⟩ ∧
      FitnessCalculator.calculate_macros t "MUSCLE_GAIN" =
        some ⟨pyRound2 (t * 0.30 / 4), pyRound2 (t * 0.50 / 4),
          pyRound2 (t * 0.20 / 9), pyRound2 t⟩ ∧
      (∀ g : String, g ≠ "WEIGHT_LOSS" → g ≠ "MUSCLE_GAIN" →
        FitnessCalculator.calculate_macros t g =
          some ⟨pyRound2 (t * 0.30 / 4), pyRound2 (t * 0.40 / 4),
            pyRound2 (t * 0.30 / 9), pyRound2 t⟩)) ∧
    (∀ (t : ℚ) (g : String), t ≤ 0 → FitnessCalculator.calculate_macros t g = none) := by
  refine ⟨?_, ?_, ?_⟩
  · have hp : pyRound2 ((2500 : ℚ) * 0.30 / 4) = 187.5 := by
      simp only [pyRound2]
      rw [show (2500 : ℚ) * 0.30 / 4 * 100 = 18750 by norm_num,
        pyRound_lt_half (f := 18750) (by norm_num) (by norm_num)]
      norm_num
    have hc : pyRound2 ((2500 : ℚ) * 0.40 / 4) = 250 := by
      simp only [pyRound2]
      rw [show (2500 : ℚ) * 0.40 / 4 * 100 = 25000 by norm_num,
        pyRound_lt_half (f := 25000) (by norm_num) (by norm_num)]
      norm_num
    have hf : pyRound2 ((2500 : ℚ) * 0.30 / 9) = 83.33 := by
      simp only [pyRound2]
      rw [show (2500 : ℚ) * 0.30 / 9 * 100 = 25000 / 3 by norm_num,
        pyRound_lt_half (f := 8333) (by norm_num) (by norm_num)]
      norm_num
    have ht : pyRound2 (2500 : ℚ) = 2500 := by
      simp only [pyRound2]
      rw [show (2500 : ℚ) * 100 = 250000 by norm_num,
        pyRound_lt_half (f := 250000) (by norm_num) (by norm_num)]
      norm_num
    simp only [FitnessCalculator.calculate_macros]
    rw [if_neg (by norm_num), if_neg (by decide), if_neg (by decide)]
    simp only [hp, hc, hf, ht]
  · intro t ht
    have ht' : ¬(t ≤ 0) := not_le.mpr ht
    refine ⟨?_, ?_, ?_⟩
    · simp only [FitnessCalculator.calculate_macros]
      rw [if_neg ht', if_pos trivial]
    · simp only [FitnessCalculator.calculate_macros]
      rw [if_neg ht', if_neg (by decide), if_pos trivial]
    · intro g h1 h2
      simp only [FitnessCalculator.calculate_macros]
      rw [if_neg ht', if_neg h1, if_neg h2]
  · intro t g ht
    simp only [FitnessCalculator.calculate_macros]
    rw [if_pos ht]

/-- Witness for C8: the default-goal branch at tdee 1000. -/
theorem claim_C8_witness :
    FitnessCalculator.calculate_macros 1000 "KEEP_FIT" =
      some ⟨pyRound2 ((1000 : ℚ) * 0.30 / 4), pyRound2 ((1000 : ℚ) * 0.40 / 4),
        pyRound2 ((1000 : ℚ) * 0.30 / 9), pyRound2 (1000 : ℚ)⟩ :=
  (claim_C8.2.1 1000 (by norm_num)).2.2 "KEEP_FIT" (by decide) (by decide)

/-- Claim C5: the daily tip is a first-match decision list over yesterday's
data: low water (< 2000 ml) wins over high burn, high burn (> 500 kcal) wins
over the generic default, and a user with no records at all gets the
hydration alert because absent data sums to zero. -/
theorem claim_C5 :
    (∀ recs : Records,
      (get_daily_total recs 1 < 2000 →
        generate_daily_tip recs = "Hydration Alert: Try to drink more water today.") ∧
      (2000 ≤ get_daily_total recs 1 →
        500 < ((recs.activities.filter (fun a => a.day == 1)).map (·.calories_burned)).sum →
        generate_daily_tip recs = "Great work! You hit a high burn yesterday.") ∧
      (2000 ≤ get_daily_total recs 1 →
        ((recs.activities.filter (fun a => a.day == 1)).map (·.calories_burned)).sum ≤ 500 →
        generate_daily_tip recs =
          "Keep up the great work! Stay consistent with your fitness journey.")) ∧
    generate_daily_tip { activities := [], water := [], profile := none } =
      "Hydration Alert: Try to drink more water today." := by
  refine ⟨?_, rfl⟩
  intro recs
  refine ⟨?_, ?_, ?_⟩
  · intro h
    simp only [generate_daily_tip]
    rw [if_pos h]
  · intro h1 h2
    simp only [generate_daily_tip]
    rw [if_neg (by omega), if_pos h2]
  · intro h1 h2
    simp only [generate_daily_tip]
    rw [if_neg (by omega), if_neg (by omega)]

/-- Witness for C5: yesterday has 500 ml of water and 600 kcal burned, and
the hydration alert wins. -/
theorem claim_C5_witness :
    generate_daily_tip recsTip = "Hydration Alert: Try to drink more water today." :=
  (claim_C5.1 recsTip).1 (by decide)

/-- Claim C6: the hydration badge is awarded exactly when it is not already
present and each of the 7 days ending today meets the water target; the
target falls back to 2500 ml when the profile is missing, the weight is
missing, or the weight is non-positive; an already-present badge makes the
check a no-op. -/
theorem claim_C6 (recs : Records) (db : List BadgeType) :
    ((check_hydration_badge recs db).1 = true ↔
      BadgeType.HYDRATION_MASTER ∉ db ∧
        ∀ i, i < 7 → hydration_target recs.profile ≤ (get_daily_total recs i : ℤ)) ∧
    (BadgeType.HYDRATION_MASTER ∈ db → check_hydration_badge recs db = (false, db)) ∧
    (BadgeType.HYDRATION_MASTER ∉ db ∧
        (∀ i, i < 7 → hydration_target recs.profile ≤ (get_daily_total recs i : ℤ)) →
      (check_hydration_badge recs db).2 = BadgeType.HYDRATION_MASTER :: db) ∧
    (¬(BadgeType.HYDRATION_MASTER ∉ db ∧
        (∀ i, i < 7 → hydration_target recs.profile ≤ (get_daily_total recs i : ℤ))) →
      (check_hydration_badge recs db).2 = db) ∧
    (recs.profile = none → hydration_target recs.profile = 2500) ∧
    (∀ p : Profile, recs.profile = some p → p.weight_kg = none →
      hydration_target recs.profile = 2500) ∧
    (∀ (p : Profile) (w : ℚ), recs.profile = some p → p.weight_kg = some w → w ≤ 0 →
      hydration_target recs.profile = 2500) := by
  have hiff := hydration_seven_iff recs (hydration_target recs.profile)
  refine ⟨?_, ?_, ?_, ?_, ?_, ?_, ?_⟩
  · rw [check_hydration_badge_eq]
    by_cases hc : BadgeType.HYDRATION_MASTER ∉ db ∧
      7 ≤ hydrationGo recs (hydration_target recs.profile) 7 0 0
    · rw [if_pos hc]
      constructor
      · intro _
        exact ⟨hc.1, hiff.mp hc.2⟩
      · intro _
        rfl
    · rw [if_neg hc]
      constructor
      · intro h
        simp at h
      · rintro ⟨h1, h2⟩
        exact absurd ⟨h1, hiff.mpr h2⟩ hc
  · intro h
    rw [check_hydration_badge_eq, if_neg (by tauto)]
  · rintro ⟨h1, h2⟩
    rw [check_hydration_badge_eq, if_pos ⟨h1, hiff.mpr h2⟩]
  · intro hn
    rw [check_hydration_badge_eq, if_neg (fun hcc => hn ⟨hcc.1, hiff.mp hcc.2⟩)]
  · intro h
    rw [h]
    rfl
  · intro p hp hw
    simp [hydration_target, hp, hw]
  · intro p w hp hw hwle
    simp [hydration_target, hp, hw, FitnessCalculator.calculate_water_intake_target, hwle]

/-- Witness for C6: no profile (2500 ml fallback) and exactly 2500 ml on
each of the 7 days, so the badge is awarded. -/
theorem claim_C6_witness :
    (check_hydration_badge recsHyd []).1 = true :=
  (claim_C6 recsHyd []).1.mpr ⟨by decide, by decide⟩

/-- Claim C10: goal progress is always defined and never exceeds 100: a zero
target gives 0.0 instead of dividing by zero, a positive target gives
min(round(current/target·100, 2), 100.0), and achievement is exactly
current ≥ target, independent of the stored status field. -/
theorem claim_C10 (g : Goal) :
    progress_percentage g ≤ 100 ∧
    (g.target_value = 0 → progress_percentage g = 0) ∧
    (0 < g.target_value →
      progress_percentage g =
        min (pyRound2 (g.current_value / g.target_value * 100)) 100) ∧
    (is_achieved g = true ↔ g.target_value ≤ g.current_value) ∧
    (∀ s : String, is_achieved { g with status := s } = is_achieved g ∧
      progress_percentage { g with status := s } = progress_percentage g) := by
  refine ⟨?_, ?_, ?_, ?_, fun s => ⟨rfl, rfl⟩⟩
  · rw [progress_percentage]
    split_ifs with hc
    · exact min_le_right _ _
    · norm_num
  · intro h
    rw [progress_percentage, if_neg (by simp [h])]
  · intro h
    rw [progress_percentage, if_pos h]
  · simp [is_achieved, ge_iff_le]

/-- Witness for C10: a zero-target goal reports 0 and an overshot goal is
achieved. -/
theorem claim_C10_witness :
    progress_percentage ⟨0, 3, "ACTIVE"⟩ = 0 ∧
    is_achieved ⟨5, 7, "ACTIVE"⟩ = true :=
  ⟨(claim_C10 ⟨0, 3, "ACTIVE"⟩).2.1 rfl,
   (claim_C10 ⟨5, 7, "ACTIVE"⟩).2.2.2.1.mpr (by norm_num)⟩

end FitnessTrack
